import Mathlib

/-!
Formal model of the rate-limited, caching dictionary proxy worker.

The definitions below are shallow embeddings of the TypeScript source:

* `checkAndIncrement` and `getStatus` embed the corresponding methods of
  the `RateLimiter` durable object (rate-limiter.ts);
* `getCacheKey`, `getCached`, `setCache`, `deleteCache` and `hasCache`
  embed the KV cache helpers (cache.ts) over an explicit model of the
  key/value store with per-entry expiration;
* `validateWord`, `rateLimitedResponse`, `handleMWError` embed
  handlers/shared.ts, `handleDefine` embeds handlers/define.ts, and
  `handleCacheDelete` embeds handlers/admin.ts; `handleRequestDefine`
  adds the catch-all of worker.ts that turns a rethrown error into a
  500 INTERNAL_ERROR response.

Wall-clock values are passed as parameters: `today` stands for the
result of `getTodayUTC()`, `resetsAt` for `getNextMidnightUTC()`, and
`now` is the current time in seconds, used by the expiration model of
the KV store. Durable-object storage under the single key "counter" is
modelled as an `Option CounterRecord` threaded through the operations.
-/

/-- The record held in durable storage under the key "counter":
a UTC date string `YYYY-MM-DD` and the count for that date. -/
structure CounterRecord where
  date : String
  count : Nat
deriving DecidableEq, Repr

/-- The JSON body produced by the rate limiter endpoints
(`RateLimitStatus` in types.ts). `remaining` is an integer because the
source computes it with plain JavaScript subtraction. -/
structure RateLimitStatus where
  allowed : Bool
  remaining : Int
  limit : Nat
  resetsAt : String
deriving DecidableEq, Repr

/-- Lines 58 to 62 of rate-limiter.ts, shared by `checkAndIncrement`
and `getStatus`: the count read from storage counts only when the
stored date equals today, otherwise it is read as 0. -/
def storedCountForToday (stored : Option CounterRecord) (today : String) : Nat :=
  match stored with
  | some r => if r.date = today then r.count else 0
  | none => 0

/-- `RateLimiter.checkAndIncrement` (rate-limiter.ts lines 51 to 85).
Returns the new stored value together with the response body. When the
effective count has reached the limit it answers
`allowed := false, remaining := 0` without writing; otherwise it writes
`{date := today, count := count + 1}` and answers `allowed := true`. -/
def checkAndIncrement (limit : Nat) (today resetsAt : String)
    (stored : Option CounterRecord) : Option CounterRecord × RateLimitStatus :=
  if limit ≤ storedCountForToday stored today then
    (stored, ⟨false, 0, limit, resetsAt⟩)
  else
    (some ⟨today, storedCountForToday stored today + 1⟩,
      ⟨true, (limit : Int) - storedCountForToday stored today - 1, limit, resetsAt⟩)

/-- `RateLimiter.getStatus` (rate-limiter.ts lines 92 to 110). Never
writes; the `allowed` field is the literal `true` of the source, whose
inline comment explains that a status check does not consume quota. -/
def getStatus (limit : Nat) (today resetsAt : String)
    (stored : Option CounterRecord) : RateLimitStatus :=
  ⟨true, (limit : Int) - storedCountForToday stored today, limit, resetsAt⟩

/-- A sequence of `n` calls of `checkAndIncrement` on one fixed day,
returning the final stored value and how many calls answered
`allowed := true`. -/
def iterateChecks (limit : Nat) (today resetsAt : String) :
    Nat → Option CounterRecord → Option CounterRecord × Nat
  | 0, stored => (stored, 0)
  | n + 1, stored =>
      ((iterateChecks limit today resetsAt n
          (checkAndIncrement limit today resetsAt stored).1).1,
        (if (checkAndIncrement limit today resetsAt stored).2.allowed then 1 else 0)
          + (iterateChecks limit today resetsAt n
              (checkAndIncrement limit today resetsAt stored).1).2)

/-- Helper: a run of `n` checks starting from an effective count below
the limit drives the effective count to `min (start + n) limit` and
allows exactly `min n (limit - start)` calls. -/
theorem iterateChecks_count (limit : Nat) (today resetsAt : String) (n : Nat) :
    ∀ stored : Option CounterRecord,
      storedCountForToday stored today ≤ limit →
      storedCountForToday (iterateChecks limit today resetsAt n stored).1 today
          = min (storedCountForToday stored today + n) limit ∧
        (iterateChecks limit today resetsAt n stored).2
          = min n (limit - storedCountForToday stored today) := by
  induction n with
  | zero =>
      intro stored h
      simp only [iterateChecks]
      omega
  | succ n ih =>
      intro stored h
      by_cases hc : limit ≤ storedCountForToday stored today
      · have hrw : checkAndIncrement limit today resetsAt stored
            = (stored, ⟨false, 0, limit, resetsAt⟩) := by
          simp [checkAndIncrement, hc]
        have hres := ih stored h
        simp only [iterateChecks, hrw]
        simp only [Bool.false_eq_true, if_false]
        constructor
        · rw [hres.1]; omega
        · rw [hres.2]; omega
      · have hrw : checkAndIncrement limit today resetsAt stored
            = (some ⟨today, storedCountForToday stored today + 1⟩,
               ⟨true, (limit : Int) - storedCountForToday stored today - 1,
                limit, resetsAt⟩) := by
          simp [checkAndIncrement, hc]
        have hcount : storedCountForToday
            (some (⟨today, storedCountForToday stored today + 1⟩ : CounterRecord)) today
            = storedCountForToday stored today + 1 := by
          simp [storedCountForToday]
        have hres := ih (some ⟨today, storedCountForToday stored today + 1⟩)
          (by rw [hcount]; omega)
        rw [hcount] at hres
        simp only [iterateChecks, hrw, if_true]
        constructor
        · rw [hres.1]; omega
        · rw [hres.2]; omega

/-- Claim C1: for every sequence of `checkAndIncrement` calls made on a
single UTC day against a counter with positive limit and a fresh
effective count, the stored count for today never exceeds the limit,
and the number of calls answered `allowed := true` is at most the limit
and exactly `min n limit`. -/
theorem checkAndIncrement_at_most_limit (limit n : Nat) (today resetsAt : String)
    (stored : Option CounterRecord) (hpos : 0 < limit)
    (hfresh : storedCountForToday stored today = 0) :
    storedCountForToday (iterateChecks limit today resetsAt n stored).1 today ≤ limit ∧
      (iterateChecks limit today resetsAt n stored).2 ≤ limit ∧
      (iterateChecks limit today resetsAt n stored).2 = min n limit := by
  have h := iterateChecks_count limit today resetsAt n stored (by omega)
  rw [hfresh] at h
  obtain ⟨h1, h2⟩ := h
  refine ⟨by omega, by omega, by omega⟩

/-- Witness for C1 at limit 2, five calls, empty storage. -/
theorem checkAndIncrement_at_most_limit_witness :
    storedCountForToday (iterateChecks 2 "2026-10-11" "reset" 5 none).1 "2026-10-11" ≤ 2 ∧
      (iterateChecks 2 "2026-10-11" "reset" 5 none).2 ≤ 2 ∧
      (iterateChecks 2 "2026-10-11" "reset" 5 none).2 = min 5 2 :=
  checkAndIncrement_at_most_limit 2 5 "2026-10-11" "reset" none (by decide) (by decide)

/-- Claim C2: an allowed `checkAndIncrement` writes back the count for
today incremented by exactly 1; a denied call leaves storage unchanged
and answers `remaining := 0`. -/
theorem checkAndIncrement_persistence (limit : Nat) (today resetsAt : String)
    (stored : Option CounterRecord) :
    ((checkAndIncrement limit today resetsAt stored).2.allowed = true →
        (checkAndIncrement limit today resetsAt stored).1
            = some ⟨today, storedCountForToday stored today + 1⟩ ∧
          storedCountForToday (checkAndIncrement limit today resetsAt stored).1 today
            = storedCountForToday stored today + 1) ∧
      ((checkAndIncrement limit today resetsAt stored).2.allowed = false →
        (checkAndIncrement limit today resetsAt stored).1 = stored ∧
          (checkAndIncrement limit today resetsAt stored).2.remaining = 0) := by
  by_cases hc : limit ≤ storedCountForToday stored today
  · have hrw : checkAndIncrement limit today resetsAt stored
        = (stored, ⟨false, 0, limit, resetsAt⟩) := by
      simp [checkAndIncrement, hc]
    rw [hrw]
    simp
  · have hrw : checkAndIncrement limit today resetsAt stored
        = (some ⟨today, storedCountForToday stored today + 1⟩,
           ⟨true, (limit : Int) - storedCountForToday stored today - 1,
            limit, resetsAt⟩) := by
      simp [checkAndIncrement, hc]
    rw [hrw]
    simp [storedCountForToday]

/-- Witness for C2: at limit 2 on today, a call at count 1 persists
count 2, and a call at count 2 is denied, leaves storage unchanged and
reports `remaining := 0`. -/
theorem checkAndIncrement_persistence_witness :
    ((checkAndIncrement 2 "2026-10-11" "reset" (some ⟨"2026-10-11", 1⟩)).1
        = some ⟨"2026-10-11", 2⟩) ∧
      ((checkAndIncrement 2 "2026-10-11" "reset" (some ⟨"2026-10-11", 2⟩)).1
          = some ⟨"2026-10-11", 2⟩ ∧
        (checkAndIncrement 2 "2026-10-11" "reset" (some ⟨"2026-10-11", 2⟩)).2.remaining = 0) :=
  ⟨((checkAndIncrement_persistence 2 "2026-10-11" "reset"
      (some ⟨"2026-10-11", 1⟩)).1 (by decide)).1,
    (checkAndIncrement_persistence 2 "2026-10-11" "reset"
      (some ⟨"2026-10-11", 2⟩)).2 (by decide)⟩

/-- Claim C3: a `checkAndIncrement` call against a stored record whose
date differs from today (including the exhausted record of yesterday)
behaves as though today started at count 0: it allows, reports
`remaining := limit - 1` and persists `{date := today, count := 1}`. -/
theorem checkAndIncrement_day_rollover (limit : Nat) (today resetsAt : String)
    (r : CounterRecord) (hday : r.date ≠ today) (hpos : 0 < limit) :
    checkAndIncrement limit today resetsAt (some r)
      = (some ⟨today, 1⟩, ⟨true, (limit : Int) - 1, limit, resetsAt⟩) := by
  have h0 : storedCountForToday (some r) today = 0 := by
    simp [storedCountForToday, hday]
  simp only [checkAndIncrement, h0]
  rw [if_neg (by omega)]
  norm_num

/-- Witness for C3: yesterday exhausted at the default limit 1000,
checked today. -/
theorem checkAndIncrement_day_rollover_witness :
    checkAndIncrement 1000 "2026-10-11" "reset" (some ⟨"2026-10-10", 1000⟩)
      = (some ⟨"2026-10-11", 1⟩, ⟨true, 999, 1000, "reset"⟩) := by
  have h := checkAndIncrement_day_rollover 1000 "2026-10-11" "reset"
    ⟨"2026-10-10", 1000⟩ (by decide) (by decide)
  rw [h]
  norm_num

/-- The two lookup types accepted by the cache helpers. -/
inductive LookupType
  | define
  | synonyms
deriving DecidableEq, Repr

/-- String form of a lookup type, as interpolated into cache keys. -/
def LookupType.toStr : LookupType → String
  | .define => "define"
  | .synonyms => "synonyms"

/-- TTL for not-found responses, 24 hours in seconds (cache.ts). -/
def NOT_FOUND_TTL : Nat := 60 * 60 * 24

/-- Model of the JavaScript `toLowerCase` call used by `getCacheKey`:
lowercase every character (the source words are ASCII dictionary
words, for which per-character lowercasing is exact). -/
def jsToLower (s : String) : String := ⟨s.data.map Char.toLower⟩

/-- `getCacheKey` (cache.ts lines 72 to 77): pipe-separated type and
lowercased word. -/
def getCacheKey (type : LookupType) (word : String) : String :=
  type.toStr ++ "|" ++ jsToLower word

/-- One stored KV value together with its absolute expiration time in
seconds, if an expiration was set on the write. -/
structure KVEntry (α : Type) where
  value : α
  expiresAt : Option Nat
deriving DecidableEq, Repr

/-- Model of a Cloudflare KV namespace: a partial map from keys to
entries. -/
def KVStore (α : Type) := String → Option (KVEntry α)

/-- `kv.put(key, value, options)` where the option `expirationTtl`, if
present, makes the entry expire `ttl` seconds after the write. -/
def kvPut (kv : KVStore α) (key : String) (value : α) (ttl : Option Nat)
    (now : Nat) : KVStore α :=
  fun k => if k = key then some ⟨value, ttl.map fun t => now + t⟩ else kv k

/-- `kv.get(key)`: an entry whose expiration time has been reached is
no longer returned. -/
def kvGet (kv : KVStore α) (key : String) (now : Nat) : Option α :=
  match kv key with
  | none => none
  | some e =>
      match e.expiresAt with
      | none => some e.value
      | some t => if now < t then some e.value else none

/-- `kv.delete(key)`. -/
def kvDelete (kv : KVStore α) (key : String) : KVStore α :=
  fun k => if k = key then none else kv k

/-- The value stored in the cache namespace (`CachedResponse` in
types.ts): the payload, the write time and the found flag. -/
structure CachedResponse (α : Type) where
  data : α
  cachedAt : Nat
  found : Bool
deriving DecidableEq, Repr

/-- `getCached` (cache.ts lines 84 to 91). -/
def getCached (kv : KVStore (CachedResponse α)) (type : LookupType)
    (word : String) (now : Nat) : Option (CachedResponse α) :=
  kvGet kv (getCacheKey type word) now

/-- `setCache` (cache.ts lines 102 to 119): found responses are written
with no options, not-found responses with `expirationTtl :=
NOT_FOUND_TTL`. -/
def setCache (kv : KVStore (CachedResponse α)) (type : LookupType)
    (word : String) (data : α) (found : Bool) (now : Nat) :
    KVStore (CachedResponse α) :=
  kvPut kv (getCacheKey type word) ⟨data, now, found⟩
    (if found then none else some NOT_FOUND_TTL) now

/-- `deleteCache` (cache.ts lines 126 to 133). -/
def deleteCache (kv : KVStore (CachedResponse α)) (type : LookupType)
    (word : String) : KVStore (CachedResponse α) :=
  kvDelete kv (getCacheKey type word)

/-- `hasCache` (cache.ts lines 140 to 148): reads the key and reports
whether a live value is present. -/
def hasCache (kv : KVStore (CachedResponse α)) (type : LookupType)
    (word : String) (now : Nat) : Bool :=
  (kvGet kv (getCacheKey type word) now).isSome

/-- Claim C7: `NOT_FOUND_TTL` is 86400 seconds; a found write has no
expiration and stays retrievable at every read time until explicitly
deleted; a not-found write is retrievable exactly while fewer than
86400 seconds have elapsed since the write. -/
theorem setCache_ttl_asymmetry (α : Type) (kv : KVStore (CachedResponse α))
    (type : LookupType) (word : String) (data : α) (now t : Nat) :
    NOT_FOUND_TTL = 86400 ∧
      getCached (setCache kv type word data true now) type word t
        = some ⟨data, now, true⟩ ∧
      getCached (deleteCache (setCache kv type word data true now) type word)
          type word t = none ∧
      getCached (setCache kv type word data false now) type word t
        = (if t < now + NOT_FOUND_TTL then some ⟨data, now, false⟩ else none) := by
  refine ⟨rfl, ?_, ?_, ?_⟩
  · simp [getCached, setCache, kvPut, kvGet]
  · simp [getCached, deleteCache, kvDelete, kvGet]
  · simp only [getCached, setCache, kvPut, kvGet, if_false, Bool.false_eq_true,
      Option.map_some]
    simp

/-- Claim C6 counterexample: the word with surrounding whitespace is
accepted unchanged by validation (established below for `validateWord`)
and maps to a different cache fingerprint than its trimmed form, so the
two lookups do not hit the same cache entry. -/
theorem getCacheKey_whitespace_counterexample :
    getCacheKey LookupType.define " word " ≠ getCacheKey LookupType.define "word" ∧
      getCacheKey LookupType.define " word " = "define| word " := by
  constructor
  · decide
  · decide

/-- Claim C6 (amended): words that differ only in letter case resolve
to the same cache fingerprint, because `getCacheKey` lowercases the
word; surrounding whitespace is not trimmed anywhere, so it changes the
fingerprint. -/
theorem getCacheKey_case_insensitive (type : LookupType) (w1 w2 : String)
    (h : jsToLower w1 = jsToLower w2) :
    getCacheKey type w1 = getCacheKey type w2 := by
  simp [getCacheKey, h]

/-- Witness for the amended C6 at a concrete pair of words. -/
theorem getCacheKey_case_insensitive_witness :
    getCacheKey LookupType.define "WORD" = getCacheKey LookupType.define "word" :=
  getCacheKey_case_insensitive LookupType.define "WORD" "word" (by decide)

/-- The rate limit block embedded in response envelopes: the source
copies `remaining`, `limit` and `resetsAt` from a `RateLimitStatus`. -/
structure QuotaInfo where
  remaining : Int
  limit : Nat
  resetsAt : String
deriving DecidableEq, Repr

/-- Projection used whenever a handler embeds a `RateLimitStatus` into
a response envelope. -/
def RateLimitStatus.toQuotaInfo (s : RateLimitStatus) : QuotaInfo :=
  ⟨s.remaining, s.limit, s.resetsAt⟩

/-- The `X-Cache` response header value. -/
inductive CacheHeader
  | hit
  | miss
deriving DecidableEq, Repr

/-- A response as assembled by the handlers: HTTP status, the JSON
envelope fields (success flag, error code, payload, cached flag, rate
limit block) and the `X-Cache` header when set. -/
structure APIResponse (δ : Type) where
  status : Nat
  success : Bool
  errorCode : Option String
  data : Option δ
  cached : Option Bool
  rateLimit : Option QuotaInfo
  xCache : Option CacheHeader
deriving DecidableEq, Repr

/-- `validateWord` (shared.ts lines 94 to 108): empty or longer than
100 characters is rejected with a 400 INVALID_WORD response, otherwise
`none` is returned and the word is used unchanged. -/
def validateWord (δ : Type) (word : String) : Option (APIResponse δ) :=
  if word = "" ∨ 100 < word.length then
    some ⟨400, false, some "INVALID_WORD", none, none, none, none⟩
  else
    none

/-- `rateLimitedResponse` (shared.ts lines 31 to 59): a 429
RATE_LIMITED envelope whose rate limit block reports `remaining := 0`.
The `Retry-After` header is a wall-clock computation and is not
modelled. -/
def rateLimitedResponse (δ : Type) (rateLimit : RateLimitStatus) : APIResponse δ :=
  ⟨429, false, some "RATE_LIMITED", none, none,
    some ⟨0, rateLimit.limit, rateLimit.resetsAt⟩, none⟩

/-- An error thrown by the upstream client: either an instance of
`MerriamWebsterError` carrying its `name` field (the subclasses set
`name` to `TimeoutError`, `NetworkError`, `InvalidKeyError` or
`APIError`), or any other thrown value. -/
inductive UpstreamError
  | mw (name : String)
  | other
deriving DecidableEq, Repr

/-- `handleMWError` (shared.ts lines 64 to 88): a `MerriamWebsterError`
becomes a 503 UPSTREAM_ERROR envelope when its name is
`InvalidKeyError` and a 502 one otherwise, carrying the given rate
limit snapshot; anything else is rethrown. -/
def handleMWError (δ : Type) (error : UpstreamError)
    (rateLimit : RateLimitStatus) : Except UpstreamError (APIResponse δ) :=
  match error with
  | .mw name =>
      .ok ⟨if name = "InvalidKeyError" then 503 else 502, false,
        some "UPSTREAM_ERROR", none, none, some rateLimit.toQuotaInfo, none⟩
  | .other => .error .other

/-- The 500 INTERNAL_ERROR response produced by the catch-all of
worker.ts. -/
def internalErrorResponse (δ : Type) : APIResponse δ :=
  ⟨500, false, some "INTERNAL_ERROR", none, none, none, none⟩

/-- The upstream lookup result (`result` in handlers/define.ts): the
`found` flag the TTL policy reads, and an opaque body. -/
structure MWResult (β : Type) where
  found : Bool
  body : β
deriving DecidableEq, Repr

/-- The state a define request can read or write: the cache namespace
and the counter record of the rate limiter durable object. -/
structure WorkerState (β : Type) where
  cache : KVStore (CachedResponse (MWResult β))
  counter : Option CounterRecord

/-- `handleDefine` (handlers/define.ts lines 24 to 94). The word
arrives already extracted from the URL; `mwDefine` is the upstream
client call, returning either a result or a thrown error. The returned
pair is the state after the request (the deferred `ctx.waitUntil`
cache write is applied to it) and either the response or the rethrown
error. -/
def handleDefine (β : Type) (limit : Nat) (today resetsAt : String) (now : Nat)
    (mwDefine : String → Except UpstreamError (MWResult β))
    (word : String) (st : WorkerState β) :
    WorkerState β × Except UpstreamError (APIResponse (MWResult β)) :=
  match validateWord (MWResult β) word with
  | some invalid => (st, .ok invalid)
  | none =>
      match getCached st.cache LookupType.define word now with
      | some cached =>
          (st, .ok ⟨200, true, none, some cached.data, some true,
            some (getStatus limit today resetsAt st.counter).toQuotaInfo,
            some CacheHeader.hit⟩)
      | none =>
          if (checkAndIncrement limit today resetsAt st.counter).2.allowed = false then
            (⟨st.cache, (checkAndIncrement limit today resetsAt st.counter).1⟩,
              .ok (rateLimitedResponse (MWResult β)
                (checkAndIncrement limit today resetsAt st.counter).2))
          else
            match mwDefine word with
            | .ok result =>
                (⟨setCache st.cache LookupType.define word result result.found now,
                  (checkAndIncrement limit today resetsAt st.counter).1⟩,
                  .ok ⟨200, true, none, some result, some false,
                    some (checkAndIncrement limit today resetsAt st.counter).2.toQuotaInfo,
                    some CacheHeader.miss⟩)
            | .error e =>
                (⟨st.cache, (checkAndIncrement limit today resetsAt st.counter).1⟩,
                  handleMWError (MWResult β) e
                    (checkAndIncrement limit today resetsAt st.counter).2)

/-- The define route of `handleRequest` (worker.ts lines 50 to 78): a
rethrown error is caught by the surrounding try and turned into the
500 INTERNAL_ERROR response. -/
def handleRequestDefine (β : Type) (limit : Nat) (today resetsAt : String)
    (now : Nat) (mwDefine : String → Except UpstreamError (MWResult β))
    (word : String) (st : WorkerState β) :
    WorkerState β × APIResponse (MWResult β) :=
  match handleDefine β limit today resetsAt now mwDefine word st with
  | (st1, .ok resp) => (st1, resp)
  | (st1, .error _) => (st1, internalErrorResponse (MWResult β))

/-- The admin response body of handlers/admin.ts: 400 for an invalid
word, 404 NOT_FOUND when nothing is cached, 200 with
`deleted := true` and the deleted key on success. -/
inductive AdminResponse
  | invalidWord
  | notFound (type : LookupType) (word : String)
  | deleted (type : LookupType) (word : String) (key : String)
deriving DecidableEq, Repr

/-- `handleCacheDelete` (handlers/admin.ts lines 15 to 84). The type
and word arrive already parsed from the path; the handler validates
the word, asks `hasCache`, and either reports NOT_FOUND without
mutating anything or deletes the single key and reports success. Only
the cache is touched; the counter is passed through unchanged. -/
def handleCacheDelete (β : Type) (type : LookupType) (word : String)
    (now : Nat) (st : WorkerState β) : WorkerState β × AdminResponse :=
  if word = "" ∨ 100 < word.length then
    (st, .invalidWord)
  else if hasCache st.cache type word now = false then
    (st, .notFound type word)
  else
    (⟨deleteCache st.cache type word, st.counter⟩,
      .deleted type word (getCacheKey type word))

/-- Claim C4: a define request whose word is cached returns the cache
hit envelope built from the read-only `getStatus` snapshot and leaves
the whole state, in particular the counter, unchanged. -/
theorem cacheHit_preserves_quota (β : Type) (limit : Nat)
    (today resetsAt : String) (now : Nat)
    (mwDefine : String → Except UpstreamError (MWResult β))
    (word : String) (st : WorkerState β) (entry : CachedResponse (MWResult β))
    (hvalid : validateWord (MWResult β) word = none)
    (hhit : getCached st.cache LookupType.define word now = some entry) :
    handleDefine β limit today resetsAt now mwDefine word st
      = (st, .ok ⟨200, true, none, some entry.data, some true,
          some (getStatus limit today resetsAt st.counter).toQuotaInfo,
          some CacheHeader.hit⟩) ∧
      (handleDefine β limit today resetsAt now mwDefine word st).1.counter
        = st.counter := by
  have h1 : handleDefine β limit today resetsAt now mwDefine word st
      = (st, .ok ⟨200, true, none, some entry.data, some true,
          some (getStatus limit today resetsAt st.counter).toQuotaInfo,
          some CacheHeader.hit⟩) := by
    simp [handleDefine, hvalid, hhit]
  exact ⟨h1, by rw [h1]⟩

/-- Witness for C4: a cached word, counter at 1 of 2, upstream failing;
the counter is untouched. -/
theorem cacheHit_preserves_quota_witness :
    (handleDefine Bool 2 "2026-10-11" "reset" 5
        (fun _ => Except.error UpstreamError.other) "hello"
        ⟨setCache (fun _ => none) LookupType.define "hello" ⟨true, true⟩ true 0,
          some ⟨"2026-10-11", 1⟩⟩).1.counter
      = some ⟨"2026-10-11", 1⟩ :=
  (cacheHit_preserves_quota Bool 2 "2026-10-11" "reset" 5
    (fun _ => Except.error UpstreamError.other) "hello"
    ⟨setCache (fun _ => none) LookupType.define "hello" ⟨true, true⟩ true 0,
      some ⟨"2026-10-11", 1⟩⟩ ⟨⟨true, true⟩, 0, true⟩
    (by decide) (by decide)).2

/-- Claim C5 counterexample: with limit 2 and the count of today equal
to 2, `getStatus` still answers `allowed := true` although
`remaining := 0`, so `allowed` is not equivalent to remaining capacity
being available. -/
theorem getStatus_allowed_counterexample :
    ¬ ((getStatus 2 "2026-10-11" "reset" (some ⟨"2026-10-11", 2⟩)).allowed = true
        ↔ 0 < (getStatus 2 "2026-10-11" "reset" (some ⟨"2026-10-11", 2⟩)).remaining) := by
  decide

/-- Claim C5 (amended): `getStatus` always reports `allowed := true`,
regardless of the stored count; `remaining` is the limit minus the
count of today, so exhaustion shows only through `remaining`, never
through `allowed`. -/
theorem getStatus_always_allowed (limit : Nat) (today resetsAt : String)
    (stored : Option CounterRecord) :
    (getStatus limit today resetsAt stored).allowed = true ∧
      (getStatus limit today resetsAt stored).remaining
        = (limit : Int) - storedCountForToday stored today :=
  ⟨rfl, rfl⟩

/-- Helper: an allowed `checkAndIncrement` stores the incremented count
for today. -/
theorem checkAndIncrement_allowed_succ (limit : Nat) (today resetsAt : String)
    (stored : Option CounterRecord)
    (h : (checkAndIncrement limit today resetsAt stored).2.allowed = true) :
    (checkAndIncrement limit today resetsAt stored).1
      = some ⟨today, storedCountForToday stored today + 1⟩ := by
  by_cases hc : limit ≤ storedCountForToday stored today
  · exfalso
    simp [checkAndIncrement, hc] at h
  · simp [checkAndIncrement, hc]

/-- Claim C8: on a cache miss where the quota was granted and the
upstream call throws a `MerriamWebsterError`, the handler returns the
UPSTREAM_ERROR envelope carrying the quota snapshot it already holds,
the cache is unchanged, and the counter keeps the incremented count
(no refund). -/
theorem upstream_failure_no_refund (β : Type) (limit : Nat)
    (today resetsAt : String) (now : Nat)
    (mwDefine : String → Except UpstreamError (MWResult β))
    (word name : String) (st : WorkerState β)
    (hvalid : validateWord (MWResult β) word = none)
    (hmiss : getCached st.cache LookupType.define word now = none)
    (hallowed : (checkAndIncrement limit today resetsAt st.counter).2.allowed = true)
    (hup : mwDefine word = .error (.mw name)) :
    handleDefine β limit today resetsAt now mwDefine word st
      = (⟨st.cache, (checkAndIncrement limit today resetsAt st.counter).1⟩,
         .ok ⟨if name = "InvalidKeyError" then 503 else 502, false,
           some "UPSTREAM_ERROR", none, none,
           some (checkAndIncrement limit today resetsAt st.counter).2.toQuotaInfo,
           none⟩) ∧
      storedCountForToday (checkAndIncrement limit today resetsAt st.counter).1 today
        = storedCountForToday st.counter today + 1 := by
  constructor
  · simp [handleDefine, hvalid, hmiss, hallowed, hup, handleMWError]
  · rw [checkAndIncrement_allowed_succ limit today resetsAt st.counter hallowed]
    simp [storedCountForToday]

/-- Witness for C8: empty cache and counter, limit 2, upstream throwing
a network error; the count of today afterwards is 1 and the response is
the 502 UPSTREAM_ERROR envelope. -/
theorem upstream_failure_no_refund_witness :
    (handleDefine Bool 2 "2026-10-11" "reset" 5
        (fun _ => Except.error (UpstreamError.mw "NetworkError")) "hello"
        ⟨fun _ => none, none⟩).2
      = Except.ok ⟨502, false, some "UPSTREAM_ERROR", none, none,
          some ⟨1, 2, "reset"⟩, none⟩ ∧
      storedCountForToday (checkAndIncrement 2 "2026-10-11" "reset" none).1 "2026-10-11"
        = 0 + 1 := by
  have h := upstream_failure_no_refund Bool 2 "2026-10-11" "reset" 5
    (fun _ => Except.error (UpstreamError.mw "NetworkError")) "hello" "NetworkError"
    ⟨fun _ => none, none⟩ (by decide) (by rfl) (by decide) (by rfl)
  constructor
  · rw [h.1]
    rfl
  · exact h.2

/-- Claim C9: for a valid word, invalidation on a missing key reports
NOT_FOUND and mutates nothing; on a present key it deletes exactly that
key (a later read of it is absent, every other key is untouched) and
reports the deletion; the counter is never touched. -/
theorem invalidate_correctness (β : Type) (type : LookupType) (word : String)
    (now : Nat) (st : WorkerState β)
    (hw : ¬ (word = "" ∨ 100 < word.length)) :
    (hasCache st.cache type word now = false →
        handleCacheDelete β type word now st = (st, .notFound type word)) ∧
      (hasCache st.cache type word now = true →
        handleCacheDelete β type word now st
          = (⟨deleteCache st.cache type word, st.counter⟩,
             .deleted type word (getCacheKey type word))) ∧
      (∀ t, getCached (deleteCache st.cache type word) type word t = none) ∧
      (∀ k, k ≠ getCacheKey type word →
        deleteCache st.cache type word k = st.cache k) ∧
      (handleCacheDelete β type word now st).1.counter = st.counter := by
  refine ⟨?_, ?_, ?_, ?_, ?_⟩
  · intro h
    simp [handleCacheDelete, hw, h]
  · intro h
    simp [handleCacheDelete, hw, h]
  · intro t
    simp [getCached, deleteCache, kvDelete, kvGet]
  · intro k hk
    simp [deleteCache, kvDelete, hk]
  · by_cases h : hasCache st.cache type word now <;>
      simp [handleCacheDelete, hw, h]

/-- Witness for C9: deleting a present entry for the word test removes
it and reports the deleted key. -/
theorem invalidate_correctness_witness :
    handleCacheDelete Bool LookupType.define "test" 5
        ⟨setCache (fun _ => none) LookupType.define "test" ⟨true, true⟩ true 0,
          some ⟨"2026-10-11", 1⟩⟩
      = (⟨deleteCache (setCache (fun _ => none) LookupType.define "test"
            ⟨true, true⟩ true 0) LookupType.define "test",
          some ⟨"2026-10-11", 1⟩⟩,
         AdminResponse.deleted LookupType.define "test"
           (getCacheKey LookupType.define "test")) :=
  (invalidate_correctness Bool LookupType.define "test" 5
    ⟨setCache (fun _ => none) LookupType.define "test" ⟨true, true⟩ true 0,
      some ⟨"2026-10-11", 1⟩⟩ (by decide)).2.1 (by decide)

/-- Claim C10: a `MerriamWebsterError` is classified as UPSTREAM_ERROR
with HTTP status 503 exactly when its name is `InvalidKeyError` and 502
otherwise; any other thrown value is rethrown, and the worker catch-all
then answers the 500 INTERNAL_ERROR response. -/
theorem upstream_error_classification (β : Type) (name : String)
    (rl : RateLimitStatus) (limit : Nat) (today resetsAt : String) (now : Nat)
    (mwDefine : String → Except UpstreamError (MWResult β))
    (word : String) (st : WorkerState β)
    (hvalid : validateWord (MWResult β) word = none)
    (hmiss : getCached st.cache LookupType.define word now = none)
    (hallowed : (checkAndIncrement limit today resetsAt st.counter).2.allowed = true)
    (hup : mwDefine word = .error .other) :
    handleMWError (MWResult β) (.mw name) rl
      = .ok ⟨if name = "InvalidKeyError" then 503 else 502, false,
          some "UPSTREAM_ERROR", none, none, some rl.toQuotaInfo, none⟩ ∧
      handleMWError (MWResult β) .other rl = .error .other ∧
      handleRequestDefine β limit today resetsAt now mwDefine word st
        = (⟨st.cache, (checkAndIncrement limit today resetsAt st.counter).1⟩,
           internalErrorResponse (MWResult β)) := by
  refine ⟨rfl, rfl, ?_⟩
  simp [handleRequestDefine, handleDefine, hvalid, hmiss, hallowed, hup,
    handleMWError]

/-- Witness for C10: an invalid key error maps to 503, and a request
whose upstream throws a plain error ends in the 500 response with the
quota consumed. -/
theorem upstream_error_classification_witness :
    handleMWError (MWResult Bool) (UpstreamError.mw "InvalidKeyError")
        ⟨true, 5, 10, "reset"⟩
      = Except.ok ⟨503, false, some "UPSTREAM_ERROR", none, none,
          some ⟨5, 10, "reset"⟩, none⟩ ∧
      handleRequestDefine Bool 2 "2026-10-11" "reset" 5
          (fun _ => Except.error UpstreamError.other) "hello" ⟨fun _ => none, none⟩
        = (⟨fun _ => none, (checkAndIncrement 2 "2026-10-11" "reset" none).1⟩,
           internalErrorResponse (MWResult Bool)) := by
  have h := upstream_error_classification Bool "InvalidKeyError"
    ⟨true, 5, 10, "reset"⟩ 2 "2026-10-11" "reset" 5
    (fun _ => Except.error UpstreamError.other) "hello" ⟨fun _ => none, none⟩
    (by decide) (by rfl) (by decide) (by rfl)
  constructor
  · rw [h.1]
    rfl
  · exact h.2.2
